import Mathlib

/-!
Shallow embedding of the route-planning backend in src/app.py (stop
sequencing and time-window scheduling engine), together with theorems
settling the specification claims about it.

Modelling conventions:
* A `datetime` value is a rational number of minutes since an arbitrary
  epoch midnight; `date()` is `dayIndex`, `time()` is `timeOfDay`.
* `strftime('%H:%M')` keeps only the whole minutes of the time of day
  (`minuteOfDay`); `strptime(s, '%H:%M')` followed by
  `replace(year/month/day)` re-bases that minute count on a given date.
* `HH:MM` window fields of a stop are minute-of-day counts.
* Python floats are modelled as exact rationals; `int(x)` is `pyInt`
  (truncation toward zero), `max` is `max`, `x * 1.5` is `x * (3/2)`.
* A pandas row is a `Stop` structure; `None` / the empty dict returned
  by `RouteService.get_route` and `_get_route_info` are `Option.none`.
* The external OSRM/TomTom provider is a function parameter
  `getRoute : List (ℚ × ℚ) → Bool → Option RouteInfo`; a provider
  failure, timeout or non-success status is the `none` result
  (`get_route` returns `None` in all those cases).
-/

namespace RouteApp

/-- Date part of a datetime given in minutes: the number of whole days
since the epoch (`datetime.date()`). -/
def dayIndex (t : ℚ) : ℤ := ⌊t / 1440⌋

/-- Time-of-day part of a datetime given in minutes (`datetime.time()`),
a rational in `[0, 1440)`. -/
def timeOfDay (t : ℚ) : ℚ := t - 1440 * ((dayIndex t : ℤ) : ℚ)

/-- Whole minute of the day shown by `strftime('%H:%M')` (seconds and
fractions are dropped by the format). -/
def minuteOfDay (t : ℚ) : ℤ := ⌊timeOfDay t⌋

/-- Python `int()` on a float value: truncation toward zero. -/
def pyInt (q : ℚ) : ℤ := if 0 ≤ q then ⌊q⌋ else -⌊-q⌋

/-- One row of the address table as consumed by `RouteOptimizer`
(src/app.py): address, client tier string, coordinates and the four
`HH:MM` window fields, the latter as minute-of-day counts. -/
structure Stop where
  address : String
  tier : String
  lat : ℚ
  lon : ℚ
  workStart : ℚ
  workEnd : ℚ
  lunchStart : ℚ
  lunchEnd : ℚ
deriving DecidableEq

/-- Well-formedness of a stop's window fields: each parsed `HH:MM`
value is a minute of the day, i.e. lies in `[0, 1440)`. Every string
accepted by `datetime.strptime(_, '%H:%M')` satisfies this. -/
def Stop.WF (p : Stop) : Prop :=
  0 ≤ p.workStart ∧ p.workStart < 1440 ∧ 0 ≤ p.workEnd ∧ p.workEnd < 1440 ∧
  0 ≤ p.lunchStart ∧ p.lunchStart < 1440 ∧ 0 ≤ p.lunchEnd ∧ p.lunchEnd < 1440

/-- Traffic classification dict produced by `TomTomService`
(src/app.py): the `traffic_level` string and the optional
`congestion_ratio` percentage. -/
structure TrafficData where
  trafficLevel : String
  congestionPercent : Option ℚ
deriving DecidableEq

/-- Multiplier lookup `TRAFFIC_LEVELS.get(level, {}).get('multiplier', 1.0)`
(src/app.py lines 21-26 and 331): low 1.0, medium 1.3, high 1.8,
very_high 2.5, anything else (e.g. `unknown`) 1.0. -/
def trafficMultiplier (level : String) : ℚ :=
  if level = "low" then 1
  else if level = "medium" then 13 / 10
  else if level = "high" then 9 / 5
  else if level = "very_high" then 5 / 2
  else 1

/-- The `route_info` dict built by `RouteService._parse_route_data`
(src/app.py lines 319-340). `trafficImpact` holds the integer `N` of the
`"+N%"` string; `congestion` the percentage of the `"P%"` string. -/
structure RouteInfo where
  distanceKm : ℚ
  durationMin : ℚ
  trafficData : Option TrafficData
  originalDurationMin : Option ℚ
  trafficImpact : Option ℤ
  congestion : Option ℚ
deriving DecidableEq

/-- Embedding of `RouteService._parse_route_data` (src/app.py lines
319-340). `distanceM` and `durationS` are OSRM's metre / second totals;
`td` is the traffic dict (`none` for the empty dict). When
`avoid_traffic` holds and traffic data is present, the nominal duration
is multiplied by the level's multiplier and the impact percentage
`int((multiplier - 1) * 100)` is recorded. -/
def parse_route_data (distanceM durationS : ℚ) (td : Option TrafficData)
    (avoidTraffic : Bool) : RouteInfo :=
  let base : RouteInfo :=
    { distanceKm := distanceM / 1000
      durationMin := durationS / 60
      trafficData := if avoidTraffic then td else none
      originalDurationMin := none
      trafficImpact := none
      congestion := none }
  match avoidTraffic, td with
  | true, some t =>
      let m := trafficMultiplier t.trafficLevel
      { base with
        durationMin := base.durationMin * m
        originalDurationMin := some (durationS / 60)
        trafficImpact := some (pyInt ((m - 1) * 100))
        congestion :=
          match t.congestionPercent with
          | some c => if c ≠ 0 then some c else none
          | none => none }
  | _, _ => base

/-- Priority class computed by `RouteOptimizer._prepare_data`
(src/app.py line 372): `0 if x == 'VIP' else 1`. -/
def priorityOf (p : Stop) : ℕ := if p.tier = "VIP" then 0 else 1

/-- Embedding of `RouteOptimizer._prepare_data` (src/app.py lines
369-374): reset the index, attach the priority and the original
position `temp_index` to each row. -/
def prepare_data (stops : List Stop) : List (ℕ × ℕ × Stop) :=
  stops.enum.map fun ip => (priorityOf ip.2, ip.1, ip.2)

/-- Comparison key used by `sort_values(['priority', 'temp_index'])`:
lexicographic on (priority, original position). -/
def route_le (a b : ℕ × ℕ × Stop) : Bool :=
  decide (a.1 < b.1) || (decide (a.1 = b.1) && decide (a.2.1 ≤ b.2.1))

/-- Embedding of `RouteOptimizer._sort_route` (src/app.py lines
376-379): sort by `(priority, temp_index)` and drop the key columns.
Because the key is unique per row (the positions are distinct), the
sorted order is the same for every correct sorting algorithm. -/
def sort_route (l : List (ℕ × ℕ × Stop)) : List Stop :=
  (l.mergeSort route_le).map fun x => x.2.2

/-- Embedding of `RouteOptimizer._adjust_time_for_schedule` (src/app.py
lines 410-428): if the cursor's time of day is inside the lunch window,
wait until lunch end on the same date; afterwards (a second, separate
`if`), if the time of day is before work start, wait until work start
on the same date. -/
def adjust_time_for_schedule (t : ℚ) (p : Stop) : ℚ :=
  let t1 :=
    if p.lunchStart ≤ timeOfDay t ∧ timeOfDay t ≤ p.lunchEnd then
      let waitUntil := 1440 * ((dayIndex t : ℤ) : ℚ) + p.lunchEnd
      if t < waitUntil then waitUntil else t
    else t
  if timeOfDay t1 < p.workStart then 1440 * ((dayIndex t1 : ℤ) : ℚ) + p.workStart
  else t1

/-- One entry of the visit schedule as built by
`RouteOptimizer._create_schedule_entry` (src/app.py lines 430-446).
`arrivalHM` / `departureHM` are the minute-of-day values of the
`'%H:%M'` strings, `date` the day index of the `'%d.%m.%Y'` string. -/
structure ScheduleEntry where
  order : ℕ
  address : String
  arrivalHM : ℤ
  departureHM : ℤ
  date : ℤ
  clientType : String
  duration : ℕ
  workWindow : ℚ × ℚ
  lunchWindow : ℚ × ℚ
deriving DecidableEq

/-- Embedding of `RouteOptimizer._create_schedule_entry` (src/app.py
lines 430-446): a 45-minute visit for `VIP`, 30 minutes otherwise;
departure is arrival plus the visit duration, both recorded as `HH:MM`
strings and the arrival's date. -/
def create_schedule_entry (index : ℕ) (p : Stop) (t : ℚ) : ScheduleEntry :=
  let visitDuration : ℕ := if p.tier = "VIP" then 45 else 30
  { order := index + 1
    address := p.address
    arrivalHM := minuteOfDay t
    departureHM := minuteOfDay (t + (visitDuration : ℚ))
    date := dayIndex t
    clientType := p.tier
    duration := visitDuration
    workWindow := (p.workStart, p.workEnd)
    lunchWindow := (p.lunchStart, p.lunchEnd) }

/-- Test `route_info.get('traffic_data', {}).get('traffic_level') in
['high', 'very_high']` from src/app.py line 455. -/
def routeTrafficHigh (info : RouteInfo) : Bool :=
  match info.trafficData with
  | some td => decide (td.trafficLevel = "high") || decide (td.trafficLevel = "very_high")
  | none => false

/-- Embedding of `RouteOptimizer._calculate_next_time` (src/app.py lines
448-461). The departure `HH:MM` string of the entry is re-parsed and
re-based on the current cursor's date (this loses a midnight rollover).
With route info and a non-last stop the travel step is
`max(duration_min / total_points * (1.5 if high traffic else 1), 5)`
minutes; otherwise a fixed 15 minutes. -/
def calculate_next_time (t : ℚ) (e : ScheduleEntry) (ri : Option RouteInfo)
    (i n : ℕ) (avoidTraffic : Bool) : ℚ :=
  let departure : ℚ := 1440 * ((dayIndex t : ℤ) : ℚ) + (e.departureHM : ℚ)
  match ri with
  | some info =>
      if i < n - 1 then
        let segment := info.durationMin / (n : ℚ)
        let segment :=
          if avoidTraffic && routeTrafficHigh info then segment * (3 / 2) else segment
        departure + max segment 5
      else departure + 15
  | none => departure + 15

/-- Loop body of `RouteOptimizer._create_schedule` (src/app.py lines
392-408): adjust the cursor for the stop's windows, emit the entry,
then advance the cursor with `_calculate_next_time`. -/
def schedule_walk (ri : Option RouteInfo) (aware : Bool) (n : ℕ) :
    List Stop → ℕ → ℚ → List ScheduleEntry
  | [], _, _ => []
  | p :: rest, i, t =>
      let t1 := adjust_time_for_schedule t p
      let e := create_schedule_entry i p t1
      e :: schedule_walk ri aware n rest (i + 1) (calculate_next_time t1 e ri i n aware)

/-- Embedding of `RouteOptimizer._create_schedule` (src/app.py lines
392-408): walk the ordered stops with the cursor starting at the
request's clock start, using the full stop count as `total_points`. -/
def create_schedule (stops : List Stop) (ri : Option RouteInfo) (t0 : ℚ)
    (aware : Bool) : List ScheduleEntry :=
  schedule_walk ri aware stops.length stops 0 t0

/-- Embedding of `RouteOptimizer.optimize_with_timing` (src/app.py lines
353-367) with its private helper `_get_route_info` (lines 381-390):
empty selection short-circuits; otherwise prepare and sort the stops,
build the waypoint path (user location first when present), consult the
provider only when the path has at least two points, and build the
schedule. `t0` is the injected clock start (`self.current_time`). -/
def optimize_with_timing (t0 : ℚ) (stops : List Stop)
    (userLocation : Option (ℚ × ℚ)) (avoidTraffic : Bool)
    (getRoute : List (ℚ × ℚ) → Bool → Option RouteInfo) :
    List Stop × List ScheduleEntry × Option RouteInfo :=
  if stops.isEmpty then ([], [], none)
  else
    let route := sort_route (prepare_data stops)
    let waypoints :=
      (match userLocation with
       | some u => [u]
       | none => []) ++ route.map fun p => (p.lat, p.lon)
    let ri := if waypoints.length > 1 then getRoute waypoints avoidTraffic else none
    (route, create_schedule route ri t0 avoidTraffic, ri)

/-- Embedding of the tier typo normalization
`df['Уровень клиента'].replace({'Standart': 'Standard'})` performed by
`CSVHandler._clean_dataframe` (src/app.py lines 519-520) and again in
the `/optimize` handler (line 668): an exact-match rewrite of the
single literal value `'Standart'`. -/
def clean_client_tier (s : String) : String :=
  if s = "Standart" then "Standard" else s

/-- Arrival instant of a schedule entry reconstructed from its recorded
date and `HH:MM` arrival string, in minutes since the epoch. -/
def entryArrivalInstant (e : ScheduleEntry) : ℤ := 1440 * e.date + e.arrivalHM

/-- Departure instant of a schedule entry: its arrival instant plus the
visit duration (the entry's own `HH:MM` departure string carries no
date, so the instant is reconstructed through the duration). -/
def entryDepartureInstant (e : ScheduleEntry) : ℤ :=
  1440 * e.date + e.arrivalHM + e.duration

/-- Strict lexicographic order on the sort key (priority, original
position); the positions in `prepare_data` output are distinct, so the
sorted order of the rows is the unique `routeLT`-sorted permutation. -/
def routeLT (a b : ℕ × ℕ × Stop) : Prop :=
  a.1 < b.1 ∨ (a.1 = b.1 ∧ a.2.1 < b.2.1)

instance : IsAntisymm (ℕ × ℕ × Stop) routeLT :=
  ⟨by
    intro a b h1 h2
    exfalso
    rcases h1 with h | ⟨e, h⟩ <;> rcases h2 with h' | ⟨e', h'⟩ <;> omega⟩

/-- Fixture: first stop of the midnight-crossing schedule (all-day work
window, morning lunch window that does not interfere). -/
def c1StopA : Stop := ⟨"A", "Standard", 0, 0, 0, 1439, 60, 90⟩

/-- Fixture: second stop of the midnight-crossing schedule. -/
def c1StopB : Stop := ⟨"B", "Standard", 0, 0, 0, 1439, 120, 150⟩

/-- Fixture: stop whose lunch window (06:00-07:00) lies before its work
start (09:00), exercising the sequential window checks. -/
def c3Stop : Stop := ⟨"X", "Standard", 0, 0, 540, 1080, 360, 420⟩

/-- Fixture: stop with work window 09:00-18:00 and lunch window
13:00-14:00, the configuration named by the spec's clamp examples. -/
def c3StopW : Stop := ⟨"W", "Standard", 0, 0, 540, 1080, 780, 840⟩

/-- Fixture: schedule entry whose departure string reads 00:20
(`departureHM = 20`), used as input to `calculate_next_time`. -/
def c4Entry : ScheduleEntry :=
  ⟨1, "A", 1430, 20, 0, "Standard", 30, (0, 1439), (60, 90)⟩

/-- Fixture: route info with 8 total minutes over 2 stops and high
traffic, making the per-leg share smaller than the 5-minute floor. -/
def c4Info : RouteInfo := ⟨10, 8, some ⟨"high", none⟩, none, none, none⟩

/-- Fixture: a VIP stop inside its work window at 10:00. -/
def c8Stop : Stop := ⟨"V", "VIP", 0, 0, 540, 1080, 780, 840⟩

/-- Fixture: the schedule entry produced for `c8Stop` at cursor 10:00. -/
def c8Entry : ScheduleEntry := create_schedule_entry 0 c8Stop 600

/-- Fixture: a stop whose tier string is the unnormalized lowercase
`"vip"`. -/
def c10Stop : Stop := ⟨"S", "vip", 0, 0, 540, 1080, 780, 840⟩

/-! Basic facts about the datetime model. -/

theorem timeOfDay_nonneg (t : ℚ) : 0 ≤ timeOfDay t := by
  unfold timeOfDay dayIndex
  have h := Int.floor_le (t / 1440)
  have h2 : (1440 : ℚ) * ((⌊t / 1440⌋ : ℤ) : ℚ) ≤ 1440 * (t / 1440) := by
    have : (0 : ℚ) ≤ 1440 := by norm_num
    exact mul_le_mul_of_nonneg_left h this
  have h3 : (1440 : ℚ) * (t / 1440) = t := by ring
  linarith

theorem timeOfDay_lt (t : ℚ) : timeOfDay t < 1440 := by
  unfold timeOfDay dayIndex
  have h := Int.lt_floor_add_one (t / 1440)
  have h2 : (1440 : ℚ) * (t / 1440) < 1440 * (((⌊t / 1440⌋ : ℤ) : ℚ) + 1) := by
    have : (0 : ℚ) < 1440 := by norm_num
    exact (mul_lt_mul_left this).mpr h
  have h3 : (1440 : ℚ) * (t / 1440) = t := by ring
  linarith

theorem combine_eq (t : ℚ) : t = 1440 * ((dayIndex t : ℤ) : ℚ) + timeOfDay t := by
  unfold timeOfDay; ring

theorem dayIndex_combine (D : ℤ) (c : ℚ) (h0 : 0 ≤ c) (h1 : c < 1440) :
    dayIndex (1440 * (D : ℚ) + c) = D := by
  unfold dayIndex
  have hq : (1440 * (D : ℚ) + c) / 1440 = (D : ℚ) + c / 1440 := by
    field_simp; ring
  rw [hq, Int.floor_int_add]
  have hz : ⌊c / 1440⌋ = 0 := by
    rw [Int.floor_eq_zero_iff]
    constructor
    · exact div_nonneg h0 (by norm_num)
    · rw [div_lt_one (by norm_num : (0 : ℚ) < 1440)]; exact h1
  omega

theorem timeOfDay_combine (D : ℤ) (c : ℚ) (h0 : 0 ≤ c) (h1 : c < 1440) :
    timeOfDay (1440 * (D : ℚ) + c) = c := by
  unfold timeOfDay
  rw [dayIndex_combine D c h0 h1]; ring

theorem minuteOfDay_eq_floor_emod (t : ℚ) : minuteOfDay t = ⌊t⌋ % 1440 := by
  have h1 : minuteOfDay t = ⌊t⌋ - 1440 * dayIndex t := by
    unfold minuteOfDay timeOfDay
    have hc : (1440 : ℚ) * ((dayIndex t : ℤ) : ℚ) = ((1440 * dayIndex t : ℤ) : ℚ) := by
      push_cast; ring
    rw [hc, Int.floor_sub_int]
  have h2 : 0 ≤ minuteOfDay t := by
    unfold minuteOfDay
    exact Int.le_floor.mpr (by exact_mod_cast timeOfDay_nonneg t)
  have h3 : minuteOfDay t < 1440 := by
    unfold minuteOfDay
    exact Int.floor_lt.mpr (by exact_mod_cast timeOfDay_lt t)
  have h4 : ⌊t⌋ % 1440 = (⌊t⌋ - 1440 * dayIndex t) % 1440 := by
    rw [sub_eq_add_neg, ← mul_neg, Int.add_mul_emod_self_left]
  rw [h4, ← h1, Int.emod_eq_of_lt h2 h3]

theorem minuteOfDay_add_nat (t : ℚ) (d : ℕ) :
    minuteOfDay (t + (d : ℚ)) = (minuteOfDay t + (d : ℤ)) % 1440 := by
  rw [minuteOfDay_eq_floor_emod, minuteOfDay_eq_floor_emod]
  rw [show ((d : ℚ)) = (((d : ℤ) : ℚ)) from by push_cast; rfl, Int.floor_add_int]
  rw [Int.emod_add_emod]

theorem minuteOfDay_nonneg (t : ℚ) : 0 ≤ minuteOfDay t :=
  Int.le_floor.mpr (by exact_mod_cast timeOfDay_nonneg t)

theorem minuteOfDay_lt (t : ℚ) : minuteOfDay t < 1440 :=
  Int.floor_lt.mpr (by exact_mod_cast timeOfDay_lt t)

/-! Structural facts about the scheduler. -/

theorem schedule_walk_length (ri : Option RouteInfo) (aware : Bool) (n : ℕ) :
    ∀ (stops : List Stop) (i : ℕ) (t : ℚ),
      (schedule_walk ri aware n stops i t).length = stops.length := by
  intro stops
  induction stops with
  | nil => intro i t; rfl
  | cons p rest ih =>
      intro i t
      simp only [schedule_walk, List.length_cons]
      rw [ih]

theorem create_schedule_length (stops : List Stop) (ri : Option RouteInfo)
    (t0 : ℚ) (aware : Bool) :
    (create_schedule stops ri t0 aware).length = stops.length :=
  schedule_walk_length ri aware stops.length stops 0 t0

theorem mem_schedule_walk (ri : Option RouteInfo) (aware : Bool) (n : ℕ) :
    ∀ (stops : List Stop) (i : ℕ) (t : ℚ) (e : ScheduleEntry),
      e ∈ schedule_walk ri aware n stops i t →
      ∃ (j : ℕ) (q : Stop) (s : ℚ), e = create_schedule_entry j q s := by
  intro stops
  induction stops with
  | nil => intro i t e he; cases he
  | cons p rest ih =>
      intro i t e he
      simp only [schedule_walk, List.mem_cons] at he
      rcases he with h | h
      · exact ⟨i, p, adjust_time_for_schedule t p, h⟩
      · exact ih _ _ e h

theorem sort_route_prepare_length (stops : List Stop) :
    (sort_route (prepare_data stops)).length = stops.length := by
  unfold sort_route
  rw [List.length_map, (List.mergeSort_perm (prepare_data stops) route_le).length_eq]
  unfold prepare_data
  rw [List.length_map, List.enum_length]

/-! Facts about the sequencer (`_prepare_data` / `_sort_route`). -/

theorem route_le_trans (a b c : ℕ × ℕ × Stop)
    (h1 : route_le a b = true) (h2 : route_le b c = true) : route_le a c = true := by
  simp only [route_le, Bool.or_eq_true, Bool.and_eq_true, decide_eq_true_eq] at *
  omega

theorem route_le_total (a b : ℕ × ℕ × Stop) :
    (route_le a b || route_le b a) = true := by
  simp only [route_le, Bool.or_eq_true, Bool.and_eq_true, decide_eq_true_eq]
  omega

theorem prepare_data_map_fst (stops : List Stop) :
    (prepare_data stops).map (fun x => x.2.1) = List.range stops.length := by
  unfold prepare_data
  rw [List.map_map]
  have h : ((fun x : ℕ × ℕ × Stop => x.2.1) ∘ fun ip : ℕ × Stop =>
      (priorityOf ip.2, ip.1, ip.2)) = Prod.fst := rfl
  rw [h, List.enum_map_fst]

theorem prepare_data_pairwise_pos (stops : List Stop) :
    List.Pairwise (fun a b : ℕ × ℕ × Stop => a.2.1 < b.2.1) (prepare_data stops) := by
  have h : List.Pairwise (· < ·) ((prepare_data stops).map (fun x => x.2.1)) := by
    rw [prepare_data_map_fst]; exact List.pairwise_lt_range _
  exact List.pairwise_map.mp h

theorem prepare_data_pri (stops : List Stop) :
    ∀ x ∈ prepare_data stops, x.1 = 0 ∨ x.1 = 1 := by
  intro x hx
  unfold prepare_data at hx
  rcases List.mem_map.mp hx with ⟨ip, _, rfl⟩
  unfold priorityOf
  split <;> simp

theorem mergeSort_pairwise_routeLT (stops : List Stop) :
    List.Pairwise routeLT ((prepare_data stops).mergeSort route_le) := by
  have hs := List.sorted_mergeSort route_le_trans route_le_total (prepare_data stops)
  have hperm := List.mergeSort_perm (prepare_data stops) route_le
  have hnd : (((prepare_data stops).mergeSort route_le).map (fun x => x.2.1)).Nodup := by
    have hp2 := hperm.map (fun x : ℕ × ℕ × Stop => x.2.1)
    rw [prepare_data_map_fst] at hp2
    exact hp2.nodup_iff.mpr (List.nodup_range _)
  have hne : List.Pairwise (fun a b : ℕ × ℕ × Stop => a.2.1 ≠ b.2.1)
      ((prepare_data stops).mergeSort route_le) := List.pairwise_map.mp hnd
  refine (hs.and hne).imp ?_
  rintro a b ⟨hle, hne2⟩
  simp only [route_le, Bool.or_eq_true, Bool.and_eq_true, decide_eq_true_eq] at hle
  unfold routeLT
  omega

theorem target_pairwise_routeLT (stops : List Stop) :
    List.Pairwise routeLT
      ((prepare_data stops).filter (fun x => decide (x.1 = 0)) ++
       (prepare_data stops).filter (fun x => !(decide (x.1 = 0)))) := by
  rw [List.pairwise_append]
  refine ⟨?_, ?_, ?_⟩
  · refine List.Pairwise.imp_of_mem ?_
      ((prepare_data_pairwise_pos stops).filter (fun x => decide (x.1 = 0)))
    intro a b ha hb hpos
    have ha0 : a.1 = 0 := by simpa using (List.mem_filter.mp ha).2
    have hb0 : b.1 = 0 := by simpa using (List.mem_filter.mp hb).2
    unfold routeLT
    omega
  · refine List.Pairwise.imp_of_mem ?_
      ((prepare_data_pairwise_pos stops).filter (fun x => !(decide (x.1 = 0))))
    intro a b ha hb hpos
    have ha1 : a.1 = 1 := by
      have h1 : ¬ a.1 = 0 := by simpa using (List.mem_filter.mp ha).2
      have h2 := prepare_data_pri stops a (List.mem_filter.mp ha).1
      omega
    have hb1 : b.1 = 1 := by
      have h1 : ¬ b.1 = 0 := by simpa using (List.mem_filter.mp hb).2
      have h2 := prepare_data_pri stops b (List.mem_filter.mp hb).1
      omega
    unfold routeLT
    omega
  · intro a ha b hb
    have ha0 : a.1 = 0 := by simpa using (List.mem_filter.mp ha).2
    have hb1 : b.1 = 1 := by
      have h1 : ¬ b.1 = 0 := by simpa using (List.mem_filter.mp hb).2
      have h2 := prepare_data_pri stops b (List.mem_filter.mp hb).1
      omega
    unfold routeLT
    omega

theorem mergeSort_eq_partition (stops : List Stop) :
    (prepare_data stops).mergeSort route_le
      = (prepare_data stops).filter (fun x => decide (x.1 = 0)) ++
        (prepare_data stops).filter (fun x => !(decide (x.1 = 0))) := by
  exact List.eq_of_perm_of_sorted
    ((List.mergeSort_perm (prepare_data stops) route_le).trans
      (List.filter_append_perm (fun x => decide (x.1 = 0)) (prepare_data stops)).symm)
    (mergeSort_pairwise_routeLT stops) (target_pairwise_routeLT stops)

theorem enumFrom_filter_vip (stops : List Stop) : ∀ n : ℕ,
    ((((List.enumFrom n stops).map fun ip => (priorityOf ip.2, ip.1, ip.2)).filter
        (fun x => decide (x.1 = 0))).map fun x => x.2.2)
      = stops.filter (fun p => decide (p.tier = "VIP")) := by
  induction stops with
  | nil => intro n; rfl
  | cons p rest ih =>
      intro n
      rw [List.enumFrom_cons]
      by_cases hp : p.tier = "VIP"
      · have h1 : priorityOf p = 0 := by simp [priorityOf, hp]
        simp [List.filter_cons, h1, hp, ih (n + 1)]
      · have h1 : priorityOf p = 1 := by simp [priorityOf, hp]
        simp [List.filter_cons, h1, hp, ih (n + 1)]

theorem enumFrom_filter_std (stops : List Stop) : ∀ n : ℕ,
    ((((List.enumFrom n stops).map fun ip => (priorityOf ip.2, ip.1, ip.2)).filter
        (fun x => !(decide (x.1 = 0)))).map fun x => x.2.2)
      = stops.filter (fun p => !(decide (p.tier = "VIP"))) := by
  induction stops with
  | nil => intro n; rfl
  | cons p rest ih =>
      intro n
      rw [List.enumFrom_cons]
      by_cases hp : p.tier = "VIP"
      · have h1 : priorityOf p = 0 := by simp [priorityOf, hp]
        simp [List.filter_cons, h1, hp, ih (n + 1)]
      · have h1 : priorityOf p = 1 := by simp [priorityOf, hp]
        simp [List.filter_cons, h1, hp, ih (n + 1)]

theorem pyInt_round_multiplier (level : String) :
    pyInt ((trafficMultiplier level - 1) * 100)
      = round ((trafficMultiplier level - 1) * 100) := by
  unfold trafficMultiplier
  split_ifs <;> norm_num [pyInt, round_eq]

theorem create_schedule_entry_fields (i : ℕ) (p : Stop) (t : ℚ) :
    (create_schedule_entry i p t).duration
        = (if (create_schedule_entry i p t).clientType = "VIP" then 45 else 30)
    ∧ (create_schedule_entry i p t).departureHM
        = ((create_schedule_entry i p t).arrivalHM
            + ((create_schedule_entry i p t).duration : ℤ)) % 1440 := by
  constructor
  · rfl
  · show minuteOfDay (t + ((if p.tier = "VIP" then 45 else 30 : ℕ) : ℚ))
        = (minuteOfDay t + ((if p.tier = "VIP" then 45 else 30 : ℕ) : ℤ)) % 1440
    exact minuteOfDay_add_nat t _

/-! Theorems settling the specification claims. -/

/-- C2: for every input collection of stops, `_sort_route` applied to
`_prepare_data` output is exactly the VIP stops in their original input
order followed by the non-VIP stops in their original input order (the
stable partition induced by sorting on `(priority, original position)`);
instantiating at `[]` shows the empty input yields the empty sequence. -/
theorem C2_priority_partition (stops : List Stop) :
    sort_route (prepare_data stops)
      = stops.filter (fun p => decide (p.tier = "VIP")) ++
        stops.filter (fun p => !(decide (p.tier = "VIP"))) := by
  unfold sort_route
  rw [mergeSort_eq_partition, List.map_append]
  have h0 : prepare_data stops
      = (List.enumFrom 0 stops).map fun ip => (priorityOf ip.2, ip.1, ip.2) := by
    unfold prepare_data
    rw [List.enum_eq_enumFrom]
  rw [h0, enumFrom_filter_vip stops 0, enumFrom_filter_std stops 0]

/-- C7: for the empty stop selection, `optimize_with_timing` returns the
empty ordered-stop list, the empty schedule and empty route metadata,
for every provider function alike — so the provider's behaviour cannot
influence the result and is never consulted. -/
theorem C7_empty_input (t0 : ℚ) (loc : Option (ℚ × ℚ)) (aware : Bool)
    (getRoute : List (ℚ × ℚ) → Bool → Option RouteInfo) :
    optimize_with_timing t0 [] loc aware getRoute = ([], [], none) := rfl

/-- C9: `optimize_with_timing` is a pure function of the clock start,
the stops, the start location, the traffic flag and the provider: two
runs with identical inputs and extensionally equal providers produce
identical outputs. The wall clock enters only through the `t0`
parameter (`self.current_time`) and all other nondeterminism only
through the provider function. -/
theorem C9_deterministic (t0 : ℚ) (stops : List Stop) (loc : Option (ℚ × ℚ))
    (aware : Bool) (g1 g2 : List (ℚ × ℚ) → Bool → Option RouteInfo)
    (h : ∀ (path : List (ℚ × ℚ)) (a : Bool), g1 path a = g2 path a) :
    optimize_with_timing t0 stops loc aware g1
      = optimize_with_timing t0 stops loc aware g2 := by
  have hg : g1 = g2 := funext fun pa => funext fun a => h pa a
  rw [hg]

theorem C9_deterministic_witness :
    optimize_with_timing 600 [c8Stop] none true (fun _ _ => none)
      = optimize_with_timing 600 [c8Stop] none true (fun _w _a => none) :=
  C9_deterministic 600 [c8Stop] none true _ _ (fun _ _ => rfl)

/-- C6: with `traffic_aware` set and traffic data present,
`_parse_route_data` multiplies the nominal duration (seconds over 60)
by the `TRAFFIC_LEVELS` table value of the reported level — low 1.0,
medium 1.3, high 1.8, very_high 2.5 — and records the impact percentage
`(multiplier - 1) * 100` (the code's `int` truncation agrees with
rounding on every table value); in particular a 1200-second (20-minute)
nominal duration at level high becomes 36 minutes with impact +80%. -/
theorem C6_traffic_adjustment (distanceM durationS : ℚ) (td : TrafficData) :
    (parse_route_data distanceM durationS (some td) true).durationMin
        = durationS / 60 * trafficMultiplier td.trafficLevel
    ∧ (parse_route_data distanceM durationS (some td) true).trafficImpact
        = some (round ((trafficMultiplier td.trafficLevel - 1) * 100))
    ∧ trafficMultiplier "low" = 1 ∧ trafficMultiplier "medium" = 13 / 10
    ∧ trafficMultiplier "high" = 9 / 5 ∧ trafficMultiplier "very_high" = 5 / 2
    ∧ (parse_route_data distanceM 1200 (some ⟨"high", none⟩) true).durationMin = 36
    ∧ (parse_route_data distanceM 1200 (some ⟨"high", none⟩) true).trafficImpact
        = some 80 := by
  refine ⟨rfl, ?_, rfl, rfl, rfl, rfl, ?_, ?_⟩
  · show some (pyInt ((trafficMultiplier td.trafficLevel - 1) * 100)) = _
    rw [pyInt_round_multiplier]
  · show (1200 : ℚ) / 60 * trafficMultiplier "high" = 36
    have hmu : trafficMultiplier "high" = 9 / 5 := rfl
    rw [hmu]; norm_num
  · show some (pyInt ((trafficMultiplier "high" - 1) * 100)) = some 80
    have hmu : trafficMultiplier "high" = 9 / 5 := rfl
    rw [hmu]; norm_num [pyInt]

/-- C10: the tier tests in `_prepare_data` and `_create_schedule_entry`
are exact string comparisons with `'VIP'`, so any other tier string
(such as lowercase `'vip'`) gets Standard priority 1 and a 30-minute
visit; and the `_clean_dataframe` normalization rewrites exactly the
literal `'Standart'` and nothing else. -/
theorem C10_exact_tier_match (p : Stop) (i : ℕ) (t : ℚ) (stops : List Stop)
    (x : ℕ × ℕ × Stop) (s : String)
    (hp : p.tier ≠ "VIP") (hx : x ∈ prepare_data stops) (hxt : x.2.2.tier ≠ "VIP")
    (hs : s ≠ "Standart") :
    (create_schedule_entry i p t).duration = 30
    ∧ x.1 = 1
    ∧ clean_client_tier s = s
    ∧ clean_client_tier "Standart" = "Standard" := by
  refine ⟨?_, ?_, ?_, rfl⟩
  · simp [create_schedule_entry, hp]
  · unfold prepare_data at hx
    rcases List.mem_map.mp hx with ⟨ip, _, rfl⟩
    simp only at hxt
    simp [priorityOf, hxt]
  · simp [clean_client_tier, hs]

theorem C10_exact_tier_match_witness :
    (create_schedule_entry 0 c10Stop 600).duration = 30
    ∧ ((1, 0, c10Stop) : ℕ × ℕ × Stop).1 = 1
    ∧ clean_client_tier "vip" = "vip"
    ∧ clean_client_tier "Standart" = "Standard" :=
  C10_exact_tier_match c10Stop 0 600 [c10Stop] (1, 0, c10Stop) "vip"
    (by decide) (by decide) (by decide) (by decide)

/-- C8: every entry of every produced schedule records a visit of
exactly 45 minutes when its tier is `VIP` and exactly 30 minutes
otherwise, and its departure `HH:MM` value is the arrival `HH:MM` value
plus that duration (as minutes of the day, i.e. modulo one day). -/
theorem C8_visit_duration (stops : List Stop) (ri : Option RouteInfo) (t0 : ℚ)
    (aware : Bool) (e : ScheduleEntry) (he : e ∈ create_schedule stops ri t0 aware) :
    e.duration = (if e.clientType = "VIP" then 45 else 30)
    ∧ e.departureHM = (e.arrivalHM + (e.duration : ℤ)) % 1440 := by
  obtain ⟨j, q, s, rfl⟩ := mem_schedule_walk ri aware stops.length stops 0 t0 e he
  exact create_schedule_entry_fields j q s

theorem C8_visit_duration_witness :
    c8Entry.duration = (if c8Entry.clientType = "VIP" then 45 else 30)
    ∧ c8Entry.departureHM = (c8Entry.arrivalHM + (c8Entry.duration : ℤ)) % 1440 := by
  refine C8_visit_duration [c8Stop] none 600 false c8Entry ?_
  have hadj : adjust_time_for_schedule 600 c8Stop = 600 := by
    norm_num [adjust_time_for_schedule, timeOfDay, dayIndex, c8Stop]
  simp [create_schedule, schedule_walk, hadj, c8Entry]

/-- C3 (amended): the two window checks of `_adjust_time_for_schedule`
are sequential `if`s, not exclusive branches. If the cursor's time of
day is inside the lunch window it advances to lunch end on the same
date, and the work-start check is then applied to that result: when
lunch end is still before work start the cursor advances further to
work start. Outside the lunch window, a cursor before work start
advances to work start and any other cursor is unchanged. -/
theorem C3_window_adjustment (p : Stop) (t : ℚ) (hwf : p.WF) :
    (p.lunchStart ≤ timeOfDay t ∧ timeOfDay t ≤ p.lunchEnd →
      adjust_time_for_schedule t p
        = (if p.lunchEnd < p.workStart
           then 1440 * ((dayIndex t : ℤ) : ℚ) + p.workStart
           else 1440 * ((dayIndex t : ℤ) : ℚ) + p.lunchEnd))
    ∧ (¬(p.lunchStart ≤ timeOfDay t ∧ timeOfDay t ≤ p.lunchEnd) →
        timeOfDay t < p.workStart →
        adjust_time_for_schedule t p = 1440 * ((dayIndex t : ℤ) : ℚ) + p.workStart)
    ∧ (¬(p.lunchStart ≤ timeOfDay t ∧ timeOfDay t ≤ p.lunchEnd) →
        p.workStart ≤ timeOfDay t →
        adjust_time_for_schedule t p = t) := by
  obtain ⟨hws0, hws1, _, _, _, _, hle0, hle1⟩ := hwf
  refine ⟨?_, ?_, ?_⟩
  · intro hl
    simp only [adjust_time_for_schedule]
    rw [if_pos hl]
    have hcomb := combine_eq t
    have ht1 : (if t < 1440 * ((dayIndex t : ℤ) : ℚ) + p.lunchEnd
        then 1440 * ((dayIndex t : ℤ) : ℚ) + p.lunchEnd else t)
        = 1440 * ((dayIndex t : ℤ) : ℚ) + p.lunchEnd := by
      split
      · rfl
      · rename_i hc
        have h2 := hl.2
        linarith [not_lt.mp hc]
    rw [ht1, timeOfDay_combine (dayIndex t) p.lunchEnd hle0 hle1,
        dayIndex_combine (dayIndex t) p.lunchEnd hle0 hle1]
  · intro hl hw
    simp only [adjust_time_for_schedule]
    rw [if_neg hl, if_pos hw]
  · intro hl hw
    simp only [adjust_time_for_schedule]
    rw [if_neg hl, if_neg (not_lt.mpr hw)]

theorem C3_window_adjustment_witness :
    adjust_time_for_schedule 810 c3StopW = 840
    ∧ adjust_time_for_schedule 465 c3StopW = 540 := by
  constructor
  · have h := (C3_window_adjustment c3StopW 810 (by norm_num [Stop.WF, c3StopW])).1
      (by norm_num [timeOfDay, dayIndex, c3StopW])
    rw [h]
    norm_num [c3StopW, dayIndex]
  · have h := (C3_window_adjustment c3StopW 465 (by norm_num [Stop.WF, c3StopW])).2.1
      (by norm_num [timeOfDay, dayIndex, c3StopW])
      (by norm_num [timeOfDay, dayIndex, c3StopW])
    rw [h]
    norm_num [c3StopW, dayIndex]

/-- C3 counterexample: for the stop `c3Stop` with lunch window
06:00-07:00 and work start 09:00, a cursor at 06:30 (390 minutes) ends
at 09:00 (540), not at the lunch end 07:00 (420) that the claim's
exclusive reading predicts — after the lunch wait the separate
work-start check fires as well. -/
theorem C3_lunch_clamp_counterexample :
    adjust_time_for_schedule 390 c3Stop = 540 ∧ (540 : ℚ) ≠ 420 := by
  constructor
  · norm_num [adjust_time_for_schedule, timeOfDay, dayIndex, c3Stop]
  · norm_num

/-- C4 (amended): for a non-last stop with route info present, the
cursor advance is the re-based departure plus
`max(duration_min / total_points * (1.5 if traffic-aware high else 1), 5)`
— the 5-minute floor is applied after the 1.5 traffic factor, not
before it as the claim orders the operations; and the schedule always
has exactly one entry per stop, so no travel step ever adds an entry
after the last stop. -/
theorem C4_segment_advance :
    (∀ (t : ℚ) (e : ScheduleEntry) (info : RouteInfo) (i n : ℕ) (aware : Bool),
      i < n - 1 →
      calculate_next_time t e (some info) i n aware
        = 1440 * ((dayIndex t : ℤ) : ℚ) + (e.departureHM : ℚ)
          + max (info.durationMin / (n : ℚ)
              * (if aware && routeTrafficHigh info then (3 : ℚ) / 2 else 1)) 5)
    ∧ ∀ (stops : List Stop) (ri : Option RouteInfo) (t0 : ℚ) (aware : Bool),
        (create_schedule stops ri t0 aware).length = stops.length := by
  constructor
  · intro t e info i n aware h
    simp only [calculate_next_time]
    rw [if_pos h]
    cases hc : (aware && routeTrafficHigh info)
    · simp [hc, mul_one]
    · simp [hc]
  · exact create_schedule_length

theorem C4_segment_advance_witness :
    calculate_next_time 0 c4Entry (some c4Info) 0 2 true = 26 := by
  have h := C4_segment_advance.1 0 c4Entry c4Info 0 2 true (by norm_num)
  rw [h]
  norm_num [c4Entry, c4Info, routeTrafficHigh, dayIndex, max_def]

/-- C4 counterexample: with 8 total minutes over 2 stops and high
traffic, the code computes `max(8/2 * 1.5, 5) = 6` and advances by 6
minutes (to 26 from departure 20), while the claim's formula
`max(8/2, 5) * 1.5 = 7.5` predicts an advance of 7.5 minutes. -/
theorem C4_clamp_order_counterexample :
    calculate_next_time 0 c4Entry (some c4Info) 0 2 true = 26
    ∧ (26 : ℚ) ≠ 1440 * ((dayIndex (0 : ℚ) : ℤ) : ℚ) + (c4Entry.departureHM : ℚ)
        + max (c4Info.durationMin / 2) 5 * (3 / 2) := by
  constructor
  · norm_num [calculate_next_time, c4Entry, c4Info, routeTrafficHigh, dayIndex, max_def]
  · norm_num [c4Entry, c4Info, dayIndex, max_def]

/-- C5: when the provider fails (returns `none` for every path, the
model of a raise, timeout or non-success status), `optimize_with_timing`
on a non-empty selection still returns a full result: the ordered stops
and the schedule both have one element per input stop, the route
metadata is the empty fallback, and every cursor advance in the
fallback uses the fixed 15 minutes per leg (no traffic factor is
applied, the multiplier is effectively 1). -/
theorem C5_provider_fallback (t0 : ℚ) (stops : List Stop) (loc : Option (ℚ × ℚ))
    (aware : Bool) (h : stops ≠ []) :
    (optimize_with_timing t0 stops loc aware fun _ _ => none).1.length = stops.length
    ∧ (optimize_with_timing t0 stops loc aware fun _ _ => none).2.1.length = stops.length
    ∧ (optimize_with_timing t0 stops loc aware fun _ _ => none).2.2 = none
    ∧ ∀ (t : ℚ) (e : ScheduleEntry) (i n : ℕ) (a : Bool),
        calculate_next_time t e none i n a
          = 1440 * ((dayIndex t : ℤ) : ℚ) + (e.departureHM : ℚ) + 15 := by
  have hne : stops.isEmpty = false := by
    cases stops with
    | nil => exact absurd rfl h
    | cons a l => rfl
  have hopt : optimize_with_timing t0 stops loc aware (fun _ _ => none)
      = (sort_route (prepare_data stops),
         create_schedule (sort_route (prepare_data stops)) none t0 aware, none) := by
    unfold optimize_with_timing
    rw [hne]
    simp
  rw [hopt]
  refine ⟨sort_route_prepare_length stops, ?_, rfl, fun t e i n a => rfl⟩
  rw [create_schedule_length, sort_route_prepare_length]

theorem C5_provider_fallback_witness :
    (optimize_with_timing 600 [c1StopA, c1StopB] none true fun _ _ => none).2.1.length
      = 2 := by
  have h := C5_provider_fallback 600 [c1StopA, c1StopB] none true (by simp)
  simpa using h.2.1

/-- C1: the claimed schedule monotonicity fails on the code. Starting
the cursor at 23:50 (minute 1430 of day 0) with two all-day Standard
stops and the 15-minute fallback travel, the first visit departs at
00:20 of day 1 (instant 1460), but `_calculate_next_time` re-parses the
departure string `'00:20'` and re-dates it to day 0, so the second
entry's arrival instant is 00:35 of day 0 (instant 35) — earlier than
the previous departure: the cursor moves backward across midnight. -/
theorem C1_cursor_moves_backward :
    ((create_schedule [c1StopA, c1StopB] none 1430 false).map
        fun e => (entryArrivalInstant e, entryDepartureInstant e))
      = [(1430, 1460), (35, 65)]
    ∧ (35 : ℤ) < 1460 := by
  constructor
  · have hA : adjust_time_for_schedule 1430 c1StopA = 1430 := by
      norm_num [adjust_time_for_schedule, timeOfDay, dayIndex, c1StopA]
    have hB : adjust_time_for_schedule 35 c1StopB = 35 := by
      norm_num [adjust_time_for_schedule, timeOfDay, dayIndex, c1StopB]
    have hsv : ¬("Standard" : String) = "VIP" := by decide
    have heA : create_schedule_entry 0 c1StopA 1430
        = ⟨1, "A", 1430, 20, 0, "Standard", 30, (0, 1439), (60, 90)⟩ := by
      norm_num [create_schedule_entry, minuteOfDay, timeOfDay, dayIndex, c1StopA, hsv]
    have heB : create_schedule_entry 1 c1StopB 35
        = ⟨2, "B", 35, 65, 0, "Standard", 30, (0, 1439), (120, 150)⟩ := by
      norm_num [create_schedule_entry, minuteOfDay, timeOfDay, dayIndex, c1StopB, hsv]
    have hn : calculate_next_time 1430
        ⟨1, "A", 1430, 20, 0, "Standard", 30, (0, 1439), (60, 90)⟩ none 0 2 false
        = 35 := by
      norm_num [calculate_next_time, dayIndex]
    simp only [create_schedule, List.length_cons, List.length_nil, schedule_walk,
      hA, heA, hn, hB, heB]
    norm_num [entryArrivalInstant, entryDepartureInstant]
  · norm_num

end RouteApp
